import Mathlib

/-!
  # librpydb protocol layer, shallowly embedded

  A verification development for the DAP transport and serialization layer of
  librpydb (protocol.py, utils.py). Python dynamics are modelled explicitly:

  * Python runtime values are `PyVal` (with `PyVal.null` standing for `None`);
  * Python dicts are association lists with insertion order, updated by
    `dictSet` (assignment: overwrite in place, append when new);
  * the byte stream feeding `socket.recv` is a `List Char`; `recv n` returns
    up to `n` of the remaining characters, and the empty string once the
    stream is exhausted (closure);
  * raising an exception is returning `Except.error` with the exception class;
  * the body-receive loop of `DAPMessage.recv_raw` is not structurally
    terminating (it can spin on a closed socket), so it takes explicit fuel:
    an outer `Option.none` means the loop is still running after that many
    iterations.
-/

/-- A Python runtime value as used by this protocol layer. `null` is `None`. -/
inductive PyVal where
  | null
  | bool (b : Bool)
  | int (n : Int)
  | str (s : String)
  | list (xs : List PyVal)
  | dict (xs : List (String × PyVal))

/-- Whether a value is Python's `None` (the `is None` / `is not None` test). -/
def PyVal.isNull : PyVal → Bool
  | .null => true
  | _ => false

/-- A Python dict with string keys, as an insertion-ordered association list. -/
abbrev JObj := List (String × PyVal)

/-- Python dict assignment `d[k] = v`: overwrite an existing key in place,
append a new key at the end. -/
def dictSet : JObj → String → PyVal → JObj
  | [], k, v => [(k, v)]
  | (k', v') :: t, k, v => if k' = k then (k, v) :: t else (k', v') :: dictSet t k v

/-- Python dict lookup `k in d` / `d[k]` combined: `some` when present. -/
def dictGet : JObj → String → Option PyVal
  | [], _ => none
  | (k', v') :: t, k => if k' = k then some v' else dictGet t k

/-- Python `del`-style removal of a key (used to model keyword binding). -/
def dictEraseKey : JObj → String → JObj
  | [], _ => []
  | (k', v') :: t, k => if k' = k then dictEraseKey t k else (k', v') :: dictEraseKey t k

/-- NoneDict.__getitem__ (utils.py:16-19): a missing key reads as `None`
instead of raising KeyError. -/
def noneDictGet (d : JObj) (k : String) : PyVal :=
  match dictGet d k with
  | none => .null
  | some v => v

/-- The Python exception classes this layer can raise. `jsonDecodeError` is
json.JSONDecodeError, a subclass of ValueError distinct from the plain
ValueError raised by `int()`. -/
inductive PyErr where
  | typeError
  | valueError
  | attributeError
  | jsonDecodeError
deriving DecidableEq

/-! ## Header-block framing (DAPMessage.recv_raw, protocol.py:72-111)

The frame reader works on raw characters, so its strings are `List Char`
and its header mapping keys are `List Char`. -/

/-- Header mapping built by parse_headers: keys and values are raw strings. -/
abbrev HDict := List (List Char × List Char)

/-- Assignment into the header mapping (same dict semantics as `dictSet`). -/
def hdictSet : HDict → List Char → List Char → HDict
  | [], k, v => [(k, v)]
  | (k', v') :: t, k, v => if k' = k then (k, v) :: t else (k', v') :: hdictSet t k v

/-- Lookup in the header mapping. -/
def hdictGet : HDict → List Char → Option (List Char)
  | [], _ => none
  | (k', v') :: t, k => if k' = k then some v' else hdictGet t k

/-- Python str.endswith applied to the CRLF terminator. -/
def endsWithCRLF (l : List Char) : Bool :=
  match l.reverse with
  | '\n' :: '\r' :: _ => true
  | _ => false

/-- Whitespace per Python str.strip. -/
def pyIsSpace (c : Char) : Bool :=
  c = ' ' || c = '\t' || c = '\n' || c = '\r' || c = '\x0b' || c = '\x0c'

/-- Python str.strip: drop whitespace from both ends. -/
def pyStrip (l : List Char) : List Char :=
  ((l.dropWhile pyIsSpace).reverse.dropWhile pyIsSpace).reverse

/-- Python str.split with a one-character separator: `"a:b:c".split(":")`
yields every separated piece, keeping empty pieces. -/
def splitColon : List Char → List (List Char)
  | [] => [[]]
  | c :: rest =>
    if c = ':' then [] :: splitColon rest
    else
      match splitColon rest with
      | h :: t => (c :: h) :: t
      | [] => [[c]]

/-- DAPMessage.parse_headers (protocol.py:113-125). Each line is unpacked as
`type, value = hl.split(":")`: a line whose split has any number of pieces
other than two raises ValueError. Both pieces are stripped and assigned into
the mapping (assignment overwrites, so a duplicate name keeps its last
occurrence). -/
def DAPMessage.parse_headers (headers : List (List Char)) : Except PyErr HDict :=
  headers.foldlM
    (fun h hl =>
      match splitColon hl with
      | [ty, value] => .ok (hdictSet h (pyStrip ty) (pyStrip value))
      | _ => .error .valueError)
    []

/-- Digits of a numeral to its value. -/
def digitsToNat (l : List Char) : Nat :=
  l.foldl (fun a c => a * 10 + (c.toNat - '0'.toNat)) 0

/-- Python `int(s)` on a string: surrounding whitespace then an optional sign
then a nonempty digit run; anything else raises ValueError (`none` here). -/
def pyIntOfChars (l : List Char) : Option Int :=
  match pyStrip l with
  | '-' :: ds => if ds ≠ [] && ds.all Char.isDigit then some (-(digitsToNat ds : Int)) else none
  | '+' :: ds => if ds ≠ [] && ds.all Char.isDigit then some (digitsToNat ds : Int) else none
  | ds => if ds ≠ [] && ds.all Char.isDigit then some (digitsToNat ds : Int) else none

/-- Python `int(x)` where `x` came out of the NoneDict: `int(None)` raises
TypeError, a non-numeric string raises ValueError. -/
def pyIntOfLookup : Option (List Char) → Except PyErr Int
  | none => .error .typeError
  | some l =>
    match pyIntOfChars l with
    | none => .error .valueError
    | some n => .ok n

/-- The header-reading loop of recv_raw (protocol.py:80-96): take one
character at a time (socket.recv(1)); an empty read before the blank line is
end of stream (`none`); a completed CRLF line is either the blank terminator
(stop, return collected header lines and the unread rest) or a header line. -/
def readHeaderLines : List Char → List Char → List (List Char) →
    Option (List (List Char) × List Char)
  | [], _, _ => none
  | c :: rest, cread_line, headers =>
    let cl := cread_line ++ [c]
    if endsWithCRLF cl then
      if cl = ['\r', '\n'] then some (headers, rest)
      else readHeaderLines rest [] (headers ++ [cl])
    else readHeaderLines rest cl headers

/-- The body-reading loop of recv_raw (protocol.py:102-107), with fuel.
Each iteration appends `socket.recv(content_size - len(data))` — modelled as
up to that many characters of the remaining stream — and then tests
`if data == ""` on the accumulated buffer. The outer `none` means the loop
has not finished within the given fuel; `some none` is the `return None`
branch; `some (some data)` is normal exit with the complete body. -/
def readBody (fuel : Nat) (sock : List Char) (content_size : Int) (data : List Char) :
    Option (Option (List Char)) :=
  match fuel with
  | 0 => none
  | fuel + 1 =>
    if (data.length : Int) < content_size then
      let want := (content_size - (data.length : Int)).toNat
      let data' := data ++ sock.take want
      if data' = [] then some none
      else readBody fuel (sock.drop want) content_size data'
    else some (some data)

/-- The outcome of one recv_raw call: `eos` is the `return None` result,
`raised e` an escaping exception, `ok` the decoded body (abstracted by the
raw body bytes, see `jsonLoadsCheck`). -/
inductive RecvOut where
  | eos
  | raised (e : PyErr)
  | ok (data : List Char)
deriving DecidableEq

/-- Models `json.loads(data)` exactly as far as these claims need it: decoding
the empty string raises json.JSONDecodeError (Expecting value); a nonempty
body is abstracted by its raw bytes, its parsed shape unused here. -/
def jsonLoadsCheck (data : List Char) : Except PyErr (List Char) :=
  if data = [] then .error .jsonDecodeError else .ok data

/-- DAPMessage.recv_raw (protocol.py:72-111): header loop, parse_headers,
`content_size = int(headers["Content-Length"])`, body loop, `json.loads`.
The result is `none` when the body loop is still running after `fuel`
iterations. -/
def DAPMessage.recv_raw (fuel : Nat) (sock : List Char) : Option RecvOut :=
  match readHeaderLines sock [] [] with
  | none => some .eos
  | some (headerLines, rest) =>
    match DAPMessage.parse_headers headerLines with
    | .error e => some (.raised e)
    | .ok h =>
      match pyIntOfLookup (hdictGet h ("Content-Length".toList)) with
      | .error e => some (.raised e)
      | .ok content_size =>
        match readBody fuel rest content_size [] with
        | none => none
        | some none => some .eos
        | some (some data) =>
          match jsonLoadsCheck data with
          | .error e => some (.raised e)
          | .ok d => some (.ok d)

example : readHeaderLines ("Content-Length: 13\r\n\r\nhello".toList) [] [] =
    some ([("Content-Length: 13\r\n".toList)], "hello".toList) := by decide

example : DAPMessage.parse_headers [("Content-Length: 13\r\n".toList)] =
    .ok [("Content-Length".toList, "13".toList)] := rfl

example : DAPMessage.recv_raw 3 ("Content-Length: 2\r\n\r\nab".toList) =
    some (.ok "ab".toList) := rfl

example : DAPMessage.recv_raw 1 ("X: 1\r\n\r\n".toList) =
    some (.raised .typeError) := rfl

example : DAPMessage.recv_raw 1 ("Content-Length: ab\r\n\r\n".toList) =
    some (.raised .valueError) := rfl

example : DAPMessage.recv_raw 1 ("Content-Length: -13\r\n\r\n".toList) =
    some (.raised .jsonDecodeError) := rfl

example : DAPMessage.recv_raw 4 ("Content-Length: 13\r\n\r\nhello".toList) = none := rfl

/-! ## Claim C1: stream closure mid-body -/

/-- A frame whose header announces 13 body bytes but whose stream closes
after delivering only 5 of them. -/
def c1Stream : List Char := "Content-Length: 13\r\n\r\nhello".toList

/-- Once the socket is exhausted and the accumulated body is nonempty but
short, every iteration of the body loop re-reads an empty string, leaves the
buffer unchanged, and loops again: no fuel suffices. -/
theorem readBody_stuck (data : List Char) (cs : Int) (hne : data ≠ [])
    (hlt : (data.length : Int) < cs) : ∀ fuel, readBody fuel [] cs data = none := by
  intro fuel
  induction fuel with
  | zero => rfl
  | succ n ih =>
    simp only [readBody, hlt, if_true, List.take_nil, List.append_nil, List.drop_nil]
    simp only [hne, if_false]
    exact ih

/-- Claim C1. The spec says a zero-length read mid-body yields the
EndOfStream marker (None). On the failing stream `c1Stream` the code instead
loops forever: the first body iteration reads the 5 available bytes, so the
buffer is nonempty and the `if data == ""` test (which only fires when no
byte was ever received) can never trigger, while every further `recv` on the
closed stream returns the empty string without changing the state. For every
fuel bound the run is still inside the loop: recv_raw never returns at all. -/
theorem recvRaw_midbody_close_diverges :
    ∀ fuel, DAPMessage.recv_raw fuel c1Stream = none := by
  intro fuel
  have hred : DAPMessage.recv_raw fuel c1Stream =
      (match readBody fuel ("hello".toList) 13 [] with
       | none => none
       | some none => some RecvOut.eos
       | some (some data) =>
         match jsonLoadsCheck data with
         | .error e => some (.raised e)
         | .ok d => some (.ok d)) := rfl
  rw [hred]
  have hbody : readBody fuel ("hello".toList) 13 [] = none := by
    cases fuel with
    | zero => rfl
    | succ n =>
      have hstep : readBody (n + 1) ("hello".toList) 13 [] =
          readBody n [] 13 ("hello".toList) := rfl
      rw [hstep]
      exact readBody_stuck _ _ (by decide) (by decide) n
  rw [hbody]

/-! ## Claim C7: missing or malformed Content-Length -/

/-- MalformedHeader in the spec's taxonomy as realized by this code: the
exception classes the header stage can raise, namely `int()` applied to a
missing Content-Length (TypeError) or to a non-numeric one (ValueError). -/
def isMalformedHeaderOutcome : Option RecvOut → Bool
  | some (.raised .typeError) => true
  | some (.raised .valueError) => true
  | _ => false

/-- A frame whose Content-Length value is numeric but negative. -/
def c7Stream : List Char := "Content-Length: -13\r\n\r\n".toList

/-- Counterexample to claim C7 as stated. The header value `-13` is not a
non-negative integer, yet the frame read does not fail with the
MalformedHeader condition: `int("-13")` succeeds, the body loop is skipped
(`0 < -13` is false), and the failure is `json.loads("")` raising
json.JSONDecodeError, the MalformedBody condition. It is still
distinguishable from EndOfStream. -/
theorem negative_content_length_not_malformed_header_cex :
    DAPMessage.parse_headers [("Content-Length: -13\r\n".toList)] =
      .ok [("Content-Length".toList, "-13".toList)] ∧
    pyIntOfChars ("-13".toList) = some (-13) ∧
    DAPMessage.recv_raw 1 c7Stream = some (.raised .jsonDecodeError) ∧
    isMalformedHeaderOutcome (DAPMessage.recv_raw 1 c7Stream) = false ∧
    DAPMessage.recv_raw 1 c7Stream ≠ some RecvOut.eos := by
  refine ⟨rfl, rfl, rfl, rfl, ?_⟩
  decide

/-- Claim C7 as amended. When the header block parses and its mapping lacks
`Content-Length`, recv_raw raises TypeError; when the value is present but
non-numeric, it raises ValueError. Both are the MalformedHeader condition,
and both are distinguishable from the EndOfStream result. (A numeric but
negative value instead slips through to a MalformedBody failure, see the
counterexample.) -/
theorem recvRaw_missing_or_nonnumeric_content_length
    (sock : List Char) (lines : List (List Char)) (rest : List Char) (h : HDict) (fuel : Nat)
    (hhd : readHeaderLines sock [] [] = some (lines, rest))
    (hph : DAPMessage.parse_headers lines = .ok h) :
    (hdictGet h ("Content-Length".toList) = none →
      DAPMessage.recv_raw fuel sock = some (.raised .typeError) ∧
      isMalformedHeaderOutcome (DAPMessage.recv_raw fuel sock) = true) ∧
    (∀ v, hdictGet h ("Content-Length".toList) = some v → pyIntOfChars v = none →
      DAPMessage.recv_raw fuel sock = some (.raised .valueError) ∧
      isMalformedHeaderOutcome (DAPMessage.recv_raw fuel sock) = true) := by
  constructor
  · intro hcl
    have : DAPMessage.recv_raw fuel sock = some (.raised .typeError) := by
      simp only [DAPMessage.recv_raw, hhd, hph, hcl, pyIntOfLookup]
    exact ⟨this, by rw [this]; rfl⟩
  · intro v hv hnum
    have : DAPMessage.recv_raw fuel sock = some (.raised .valueError) := by
      simp only [DAPMessage.recv_raw, hhd, hph, hv, pyIntOfLookup, hnum]
    exact ⟨this, by rw [this]; rfl⟩

/-- Witness for the amended C7 at two concrete frames: one lacking
Content-Length entirely, one carrying the non-numeric value `ab`. -/
theorem recvRaw_missing_or_nonnumeric_content_length_witness :
    DAPMessage.recv_raw 0 ("X: 1\r\n\r\n".toList) = some (.raised .typeError) ∧
    DAPMessage.recv_raw 0 ("Content-Length: ab\r\n\r\n".toList) =
      some (.raised .valueError) := by
  constructor
  · exact ((recvRaw_missing_or_nonnumeric_content_length ("X: 1\r\n\r\n".toList)
      [("X: 1\r\n".toList)] [] [("X".toList, "1".toList)] 0 (by decide) rfl).1 rfl).1
  · exact (((recvRaw_missing_or_nonnumeric_content_length
      ("Content-Length: ab\r\n\r\n".toList) [("Content-Length: ab\r\n".toList)] []
      [("Content-Length".toList, "ab".toList)] 0 (by decide) rfl).2)
      ("ab".toList) rfl rfl).1

/-! ## Claim C8: header line splitting -/

/-- Number of colons in a line. -/
def colonCount (l : List Char) : Nat := l.countP (· = ':')

/-- Whether every line of a header block contains exactly one colon. -/
def allOneColon (ls : List (List Char)) : Bool := ls.all (fun l => colonCount l == 1)

/-- Split a line at its first colon, when it has one. -/
def splitAtFirstColon : List Char → Option (List Char × List Char)
  | [] => none
  | c :: rest =>
    if c = ':' then some ([], rest)
    else (splitAtFirstColon rest).map (fun p => (c :: p.1, p.2))

/-- Modelled from the spec (4.1 HeaderBlockParser): split each line at the
first colon, trim surrounding whitespace from name and value, insert into the
mapping case-sensitively with the last occurrence of a duplicate name
winning. A line without any colon is outside the claim and yields `none`. -/
def parse_headers_spec (headers : List (List Char)) : Option HDict :=
  headers.foldlM
    (fun h hl => (splitAtFirstColon hl).map (fun p => hdictSet h (pyStrip p.1) (pyStrip p.2)))
    []

/-- View an optional parse as the code's Except form. -/
def optionToExcept : Option HDict → Except PyErr HDict
  | none => .error .valueError
  | some h => .ok h

/-- Counterexample to claim C8 as stated. The line `X: a:b` contains a colon
(two of them), and the claim says it is accepted with the split at the first
colon. The code instead unpacks `hl.split(":")` — three pieces — into two
variables, raising ValueError, while the first-colon contract of the spec
accepts the line with value `a:b`. -/
theorem parse_headers_two_colon_line_cex :
    DAPMessage.parse_headers [("X: a:b\r\n".toList)] = .error .valueError ∧
    parse_headers_spec [("X: a:b\r\n".toList)] = some [("X".toList, "a:b".toList)] := by
  exact ⟨rfl, rfl⟩

/-- A colonless line splits into itself alone. -/
theorem splitColon_of_no_colon (l : List Char) (h : colonCount l = 0) :
    splitColon l = [l] := by
  induction l with
  | nil => rfl
  | cons c rest ih =>
    have hc : ¬(c = ':') := by
      intro hc
      simp [colonCount, List.countP_cons, hc] at h
    have hrest : colonCount rest = 0 := by
      simpa [colonCount, List.countP_cons, hc] using h
    simp only [splitColon, if_neg hc, ih hrest]

/-- A line with exactly one colon: the code's full split has exactly the two
pieces that the first-colon split produces. -/
theorem splitColon_of_one_colon (l : List Char) (h : colonCount l = 1) :
    ∃ a b, splitColon l = [a, b] ∧ splitAtFirstColon l = some (a, b) := by
  induction l with
  | nil => simp [colonCount] at h
  | cons c rest ih =>
    by_cases hc : c = ':'
    · have hrest : colonCount rest = 0 := by
        simpa [colonCount, List.countP_cons, hc] using h
      refine ⟨[], rest, ?_, ?_⟩
      · simp only [splitColon, if_pos hc, splitColon_of_no_colon rest hrest]
      · simp only [splitAtFirstColon, if_pos hc]
    · have hrest : colonCount rest = 1 := by
        simpa [colonCount, List.countP_cons, hc] using h
      obtain ⟨a, b, hsc, hsf⟩ := ih hrest
      refine ⟨c :: a, b, ?_, ?_⟩
      · simp only [splitColon, if_neg hc, hsc]
      · simp only [splitAtFirstColon, if_neg hc, hsf]
        rfl

/-- The two parsers agree line by line starting from any accumulator, as long
as every line has exactly one colon. -/
theorem parse_headers_agrees_aux (lines : List (List Char)) :
    ∀ acc : HDict, allOneColon lines = true →
      lines.foldlM
        (fun h hl =>
          match splitColon hl with
          | [ty, value] => Except.ok (hdictSet h (pyStrip ty) (pyStrip value))
          | _ => Except.error PyErr.valueError) acc =
      optionToExcept (lines.foldlM
        (fun h hl => (splitAtFirstColon hl).map
          (fun p => hdictSet h (pyStrip p.1) (pyStrip p.2))) acc) := by
  induction lines with
  | nil => intro acc _; rfl
  | cons l rest ih =>
    intro acc hall
    have hall' := hall
    simp only [allOneColon, List.all_cons, Bool.and_eq_true] at hall'
    have hl1 : colonCount l = 1 := by simpa using hall'.1
    have hrest : allOneColon rest = true := hall'.2
    obtain ⟨a, b, hsc, hsf⟩ := splitColon_of_one_colon l hl1
    simp only [List.foldlM_cons, hsc, hsf]
    exact ih (hdictSet acc (pyStrip a) (pyStrip b)) hrest

/-- Claim C8 as amended. For header blocks whose every line contains exactly
one colon, the code parser succeeds and agrees with the spec contract: split
at the (only, hence first) colon, trim surrounding whitespace from name and
value, insert case-sensitively, last duplicate wins. A line whose value part
itself contains a colon is not accepted: it raises ValueError (see the
counterexample). -/
theorem parse_headers_single_colon_agrees_spec (lines : List (List Char))
    (h : allOneColon lines = true) :
    DAPMessage.parse_headers lines = optionToExcept (parse_headers_spec lines) := by
  unfold DAPMessage.parse_headers parse_headers_spec
  exact parse_headers_agrees_aux lines [] h

/-- Witness for the amended C8 on a concrete block with a duplicate name:
both parsers produce the same mapping (in which the later value 14 won). -/
theorem parse_headers_single_colon_agrees_spec_witness :
    allOneColon [("Content-Length: 13\r\n".toList), ("Content-Length: 14\r\n".toList)] = true ∧
    DAPMessage.parse_headers
        [("Content-Length: 13\r\n".toList), ("Content-Length: 14\r\n".toList)] =
      optionToExcept (parse_headers_spec
        [("Content-Length: 13\r\n".toList), ("Content-Length: 14\r\n".toList)]) := by
  exact ⟨by decide, parse_headers_single_colon_agrees_spec _ (by decide)⟩

/-! ## Requests (DAPRequest, protocol.py:175-198, 54-70, 465-467) -/

/-- DAPMessage.remove_nones (protocol.py:175-185): copy every key whose value
is not None into a fresh dict. -/
def DAPMessage.remove_nones (d : JObj) : JObj :=
  d.foldl (fun acc kv => if kv.2.isNull then acc else dictSet acc kv.1 kv.2) []

/-- A DAPRequest instance: `command` and `kwargs` are set by __init__
(protocol.py:189-191); the `seq` attribute exists only once set_seq ran. -/
structure DAPRequestObj where
  command : PyVal
  kwargs : JObj
  seq : Option PyVal

/-- DAPMessage.set_seq (protocol.py:46-52): assign the seq attribute,
return self. -/
def DAPRequestObj.set_seq (r : DAPRequestObj) (s : PyVal) : DAPRequestObj :=
  { r with seq := some s }

/-- The body of `DAPRequest.__init__(self, command, **kwargs)`
(protocol.py:188-191) after argument binding: store the command and
`DAPMessage.remove_nones(kwargs)`. No seq attribute exists yet. -/
def DAPRequest.init (command : PyVal) (kwargs : JObj) : DAPRequestObj :=
  ⟨command, DAPMessage.remove_nones kwargs, none⟩

/-- A call to `DAPRequest.__init__(self, command, **kwargs)` under Python's
binding rules. A keyword named `self` collides with the positionally bound
self of the method call and raises TypeError (multiple values for argument
self) before anything else. Then `command` binds the single positional
argument or the keyword `command` (absent: TypeError for a missing required
argument; both at once: TypeError for multiple values); two or more
positionals beyond self also raise TypeError, since the signature has no
*args. The remaining keywords become `kwargs`. -/
def pyCallDAPRequestInit (pos : List PyVal) (kw : JObj) : Except PyErr DAPRequestObj :=
  if (dictGet kw "self").isSome then .error .typeError
  else
    match pos with
    | [] =>
      match dictGet kw "command" with
      | some c => .ok (DAPRequest.init c (dictEraseKey kw "command"))
      | none => .error .typeError
    | [c] =>
      if (dictGet kw "command").isSome then .error .typeError
      else .ok (DAPRequest.init c kw)
    | _ => .error .typeError

/-- DAPRunInTerminalRequest.__init__ (protocol.py:465-467): after self it
passes six positional arguments — the literal "runInTerminal" and then kind,
title, cwd, args, env — to DAPRequest.__init__. Python's default None for an
omitted keyword parameter is the explicit null value here. -/
def DAPRunInTerminalRequest.init (cwd args kind title env : PyVal) :
    Except PyErr DAPRequestObj :=
  pyCallDAPRequestInit [.str "runInTerminal", kind, title, cwd, args, env] []

/-- DAPMessage.recv past the frame decode (protocol.py:62-70), applied to the
decoded body object (a NoneDict): read `arguments` (a missing key or an
explicit null both become the empty kwargs), build
`DAPRequest(command=body["command"], **kwargs)`, and stamp `body["seq"]`.
Expanding a non-mapping with ** raises TypeError, as does a duplicate
`command` keyword arriving inside arguments, or a `self` keyword colliding
with the bound self. -/
def DAPMessage.recv_body (body : JObj) : Except PyErr DAPRequestObj :=
  match noneDictGet body "arguments" with
  | .null =>
    match pyCallDAPRequestInit [] [("command", noneDictGet body "command")] with
    | .error e => .error e
    | .ok rq => .ok (rq.set_seq (noneDictGet body "seq"))
  | .dict l =>
    if (dictGet l "command").isSome then .error .typeError
    else
      match pyCallDAPRequestInit [] (("command", noneDictGet body "command") :: l) with
      | .error e => .error e
      | .ok rq => .ok (rq.set_seq (noneDictGet body "seq"))
  | _ => .error .typeError

/-- The commands the spec enumerates as supported. -/
def supportedCommands : List String :=
  ["runInTerminal", "setBreakpoints", "setFunctionBreakpoints", "continue", "next",
   "step", "stepOut", "pause", "initialize", "stackTrace", "scopes", "variables",
   "setVariable", "source", "threads", "evaluate"]

/-! ## Claim C10: the typed runInTerminal request constructor -/

/-- Claim C10. Every construction of a DAPRunInTerminalRequest raises
TypeError: its __init__ forwards five extra positional arguments after the
command string to DAPRequest.__init__, whose signature accepts only the
command positionally. -/
theorem dapRunInTerminalRequest_always_typeError :
    ∀ cwd args kind title env : PyVal,
      DAPRunInTerminalRequest.init cwd args kind title env = .error .typeError :=
  fun _ _ _ _ _ => rfl

/-! ## Claim C9: no None-valued kwargs survive construction -/

/-- Every stored value in a kwargs dict is non-null. -/
def noNullValues (l : JObj) : Bool := l.all (fun kv => !kv.2.isNull)

/-- Dict assignment of a non-null value preserves all-non-null. -/
theorem noNullValues_dictSet (d : JObj) (k : String) (v : PyVal)
    (hd : noNullValues d = true) (hv : v.isNull = false) :
    noNullValues (dictSet d k v) = true := by
  induction d with
  | nil => simp [noNullValues, dictSet, hv]
  | cons kv t ih =>
    simp only [noNullValues, List.all_cons, Bool.and_eq_true] at hd
    by_cases hk : kv.1 = k
    · simp [noNullValues, dictSet, hk, hv, hd.2]
    · have := ih hd.2
      simp only [noNullValues] at this
      simp [noNullValues, dictSet, hk, hd.1, this]

/-- remove_nones only ever outputs non-null values. -/
theorem noNullValues_remove_nones (d : JObj) :
    noNullValues (DAPMessage.remove_nones d) = true := by
  suffices h : ∀ acc : JObj, noNullValues acc = true →
      noNullValues (d.foldl
        (fun acc kv => if kv.2.isNull then acc else dictSet acc kv.1 kv.2) acc) = true by
    exact h [] rfl
  induction d with
  | nil => intro acc hacc; simpa using hacc
  | cons kv t ih =>
    intro acc hacc
    simp only [List.foldl_cons]
    by_cases hn : kv.2.isNull
    · simpa [hn] using ih acc hacc
    · have hn' : kv.2.isNull = false := by simpa using hn
      simpa [hn'] using ih (dictSet acc kv.1 kv.2) (noNullValues_dictSet acc kv.1 kv.2 hacc hn')

/-- Setting a key absent from a dict appends it at the end. -/
theorem dictSet_absent (d : JObj) (k : String) (v : PyVal)
    (h : dictGet d k = none) : dictSet d k v = d ++ [(k, v)] := by
  induction d with
  | nil => rfl
  | cons kv t ih =>
    simp only [dictGet] at h
    by_cases hk : kv.1 = k
    · simp [hk] at h
    · simp only [dictGet, if_neg hk] at h
      simp [dictSet, hk, ih h]

/-- Erasing a key absent from a dict is the identity. -/
theorem dictEraseKey_absent (d : JObj) (k : String)
    (h : dictGet d k = none) : dictEraseKey d k = d := by
  induction d with
  | nil => rfl
  | cons kv t ih =>
    simp only [dictGet] at h
    by_cases hk : kv.1 = k
    · simp [hk] at h
    · simp only [dictGet, if_neg hk] at h
      simp [dictEraseKey, hk, ih h]

/-- Claim C9. First conjunct: every DAPRequest construction stores a kwargs
dict with no None-valued entries, because __init__ filters the bound keyword
arguments through remove_nones. Second conjunct: an argument arriving as an
explicit JSON null is indistinguishable after construction from one that was
absent — adding a null entry under a fresh key changes nothing about the
constructed request. -/
theorem dapRequest_kwargs_no_nones :
    (∀ (command : PyVal) (kw : JObj),
      noNullValues (DAPRequest.init command kw).kwargs = true) ∧
    (∀ (command : PyVal) (kw : JObj) (k : String), dictGet kw k = none →
      DAPRequest.init command (dictSet kw k .null) = DAPRequest.init command kw) := by
  constructor
  · intro command kw
    exact noNullValues_remove_nones kw
  · intro command kw k h
    unfold DAPRequest.init
    rw [dictSet_absent kw k .null h]
    unfold DAPMessage.remove_nones
    rw [List.foldl_append]
    rfl

/-- Witness for C9 at a concrete construction: a kwargs dict carrying an
explicit null entry constructs the very request the dict without that entry
constructs, and its stored kwargs are null-free. -/
theorem dapRequest_kwargs_no_nones_witness :
    noNullValues (DAPRequest.init (.str "next") [("threadId", .int 1), ("granularity", .null)]).kwargs = true ∧
    DAPRequest.init (.str "next") (dictSet [("threadId", PyVal.int 1)] "granularity" .null) =
      DAPRequest.init (.str "next") [("threadId", PyVal.int 1)] := by
  constructor
  · exact dapRequest_kwargs_no_nones.1 (.str "next") [("threadId", .int 1), ("granularity", .null)]
  · exact dapRequest_kwargs_no_nones.2 (.str "next") [("threadId", PyVal.int 1)] "granularity" rfl

/-! ## Claim C3: no typed dispatch in the message factory -/

/-- A decoded wire map with an unrecognized command whose arguments carry an
explicit null value. -/
def c3BodyUnknown : JObj :=
  [("command", .str "unsupportedXyz"), ("arguments", .dict [("a", .null)]), ("seq", .int 1)]

/-- A decoded wire map carrying one of the enumerated supported commands. -/
def c3BodyRIT : JObj :=
  [("command", .str "runInTerminal"), ("arguments", .dict [("cwd", .str "/tmp")]), ("seq", .int 2)]

/-- Counterexample to claim C3 as stated. First: for the unrecognized
command, the arguments mapping is not carried unchanged — the null-valued
entry is dropped by remove_nones, so the stored kwargs are empty rather than
the original mapping. Second: for the supported command runInTerminal the
factory performs exactly the same generic DAPRequest construction (storing
the raw command string in the `command` field of a plain DAPRequest), while
the dedicated typed class DAPRunInTerminalRequest cannot even be
instantiated — its constructor raises TypeError on every input — so no typed
variant is ever produced. -/
theorem recv_no_typed_dispatch_cex :
    DAPMessage.recv_body c3BodyUnknown =
      .ok ⟨.str "unsupportedXyz", [], some (.int 1)⟩ ∧
    ([] : JObj) ≠ [("a", PyVal.null)] ∧
    DAPMessage.recv_body c3BodyRIT =
      .ok ⟨.str "runInTerminal", [("cwd", PyVal.str "/tmp")], some (.int 2)⟩ ∧
    "runInTerminal" ∈ supportedCommands ∧
    DAPRunInTerminalRequest.init (.str "/tmp") (.list []) .null .null .null =
      .error .typeError := by
  refine ⟨rfl, ?_, rfl, ?_, rfl⟩
  · intro h
    exact List.noConfusion h
  · simp [supportedCommands]

/-- Claim C3 as amended. For every decoded wire map, recv never constructs a
per-command typed variant; the five conjuncts cover every possible shape of
the `arguments` lookup. When arguments is a dict containing neither a
`command` nor a `self` key, recv constructs the generic passthrough
DAPRequest: the raw command lookup result becomes the command field, the
arguments mapping with its None-valued entries removed (not verbatim)
becomes kwargs, and the seq lookup is stamped on. When arguments is null or
absent, the same generic construction runs with empty kwargs. When
arguments is a dict containing a `command` key (a duplicate keyword) or a
`self` key (a collision with the bound self), the construction raises
TypeError, and so does expanding a non-mapping arguments value with ** —
so every outcome is either the generic passthrough or TypeError. -/
theorem recv_always_generic_passthrough :
    (∀ (body : JObj) (l : JObj), noneDictGet body "arguments" = .dict l →
      dictGet l "command" = none → dictGet l "self" = none →
      DAPMessage.recv_body body =
        .ok ⟨noneDictGet body "command", DAPMessage.remove_nones l,
             some (noneDictGet body "seq")⟩) ∧
    (∀ body : JObj, noneDictGet body "arguments" = PyVal.null →
      DAPMessage.recv_body body =
        .ok ⟨noneDictGet body "command", [], some (noneDictGet body "seq")⟩) ∧
    (∀ (body : JObj) (l : JObj), noneDictGet body "arguments" = .dict l →
      (dictGet l "command").isSome = true →
      DAPMessage.recv_body body = .error .typeError) ∧
    (∀ (body : JObj) (l : JObj), noneDictGet body "arguments" = .dict l →
      dictGet l "command" = none → (dictGet l "self").isSome = true →
      DAPMessage.recv_body body = .error .typeError) ∧
    (∀ (body : JObj) (v : PyVal), noneDictGet body "arguments" = v →
      v.isNull = false → (∀ xs, v ≠ PyVal.dict xs) →
      DAPMessage.recv_body body = .error .typeError) := by
  refine ⟨?_, ?_, ?_, ?_, ?_⟩
  · intro body l hargs hnc hns
    simp only [DAPMessage.recv_body, hargs, hnc, Option.isSome_none, Bool.false_eq_true,
      if_false, if_true, reduceIte, pyCallDAPRequestInit, dictGet, hns, DAPRequest.init,
      dictEraseKey, dictEraseKey_absent l "command" hnc, DAPRequestObj.set_seq]
    rfl
  · intro body hargs
    simp only [DAPMessage.recv_body, hargs, pyCallDAPRequestInit, dictGet,
      Option.isSome_none, Bool.false_eq_true, if_false, if_true, reduceIte,
      DAPRequest.init, dictEraseKey, DAPMessage.remove_nones, List.foldl_nil,
      DAPRequestObj.set_seq]
    rfl
  · intro body l hargs hdup
    simp [DAPMessage.recv_body, hargs, hdup]
  · intro body l hargs hnc hself
    simp [DAPMessage.recv_body, hargs, hnc, pyCallDAPRequestInit, dictGet, hself]
  · intro body v hargs hnn hnd
    cases v with
    | null => simp [PyVal.isNull] at hnn
    | dict xs => exact absurd rfl (hnd xs)
    | bool b => simp [DAPMessage.recv_body, hargs]
    | int n => simp [DAPMessage.recv_body, hargs]
    | str str => simp [DAPMessage.recv_body, hargs]
    | list xs => simp [DAPMessage.recv_body, hargs]

/-- Witness for the amended C3: the generic construction on the concrete
supported-command map, and the TypeError outcomes for arguments carrying a
duplicate `command` key, a colliding `self` key, and a non-mapping value. -/
theorem recv_always_generic_passthrough_witness :
    DAPMessage.recv_body c3BodyRIT =
      .ok ⟨noneDictGet c3BodyRIT "command",
           DAPMessage.remove_nones [("cwd", PyVal.str "/tmp")],
           some (noneDictGet c3BodyRIT "seq")⟩ ∧
    DAPMessage.recv_body
        [("command", PyVal.str "x"), ("arguments", PyVal.dict [("command", PyVal.str "y")])] =
      .error .typeError ∧
    DAPMessage.recv_body
        [("command", PyVal.str "x"), ("arguments", PyVal.dict [("self", PyVal.int 1)])] =
      .error .typeError ∧
    DAPMessage.recv_body [("command", PyVal.str "x"), ("arguments", PyVal.int 5)] =
      .error .typeError := by
  refine ⟨recv_always_generic_passthrough.1 c3BodyRIT [("cwd", PyVal.str "/tmp")] rfl rfl rfl,
    recv_always_generic_passthrough.2.2.1 _ [("command", PyVal.str "y")] rfl rfl,
    recv_always_generic_passthrough.2.2.2.1 _ [("self", PyVal.int 1)] rfl rfl rfl,
    recv_always_generic_passthrough.2.2.2.2 _ (PyVal.int 5) rfl rfl
      (fun xs h => PyVal.noConfusion h)⟩


/-! ## Serialization (DAPMessage.serialize and the variant classes)

DAPMessage.serialize (protocol.py:136-147) builds `message` with `seq` and
`type` (from get_type) and lets the variant's serialize_context fill in the
rest; the trailing json.dumps is omitted here, the claims being about the
map. Each variant's serialize_*_context assigns `message["body"] = body`
before filling the `body` dict; since both names alias one object, the final
contents of `message` are as if the completed body were inserted, which is
how the model writes it. -/

/-- DAPRequest.get_type (protocol.py:197-198): returns the literal string
"type", not "request". -/
def DAPRequest.get_type : String := "type"

/-- DAPRequest.serialize_context (protocol.py:193-195). -/
def DAPRequestObj.serialize_context (r : DAPRequestObj) (message : JObj) : JObj :=
  dictSet (dictSet message "command" r.command) "args" (.dict r.kwargs)

/-- DAPMessage.serialize for a request. -/
def DAPRequestObj.serialize (r : DAPRequestObj) (seq : PyVal) : JObj :=
  r.serialize_context (dictSet (dictSet [] "seq" seq) "type" (.str DAPRequest.get_type))

/-- The conditional assignment pattern `if self.x is not None: body[k] = x`
used by every variant for an optional field. -/
def dictSetOpt {α : Type} (b : JObj) (k : String) (f : α → PyVal) : Option α → JObj
  | none => b
  | some x => dictSet b k (f x)

/-- The event subclasses of protocol.py with the fields their __init__
stores. Scalar fields carry their documented types; opaque payloads passed
through verbatim (breakpoint, module, source, capabilities, restart, data)
are plain values. -/
inductive DAPEventMsg where
  | DAPInitializedEvent
  | DAPStoppedEvent (reason : String) (description : Option String) (thread_id : Option Int)
      (preserve_focus_hint : Option Bool) (text : Option String)
      (all_threads_stopped : Option Bool)
  | DAPContinueEvent (thread_id : Int) (all_threads_continue : Option Bool)
  | DAPExitedEvent (ec : Int)
  | DAPTerminatedEvent (restart : Option PyVal)
  | DAPThreadEvent (reason : String) (thread_id : Int)
  | DAPOutputEvent (output : String) (category : Option String)
      (variables_reference : Option Int) (source : Option PyVal) (line : Option Int)
      (column : Option Int) (data : Option PyVal)
  | DAPBreakpointEvent (reason : String) (breakpoint : PyVal)
  | DAPModuleEvent (reason : String) (module : PyVal)
  | DAPLoadedSourceEvent (reason : String) (source : PyVal)
  | DAPProcessEvent (name : String) (process_id : Option Int) (is_local : Option Bool)
      (start_method : Option String)
  | DAPCapabilitiesEvent (capabilities : PyVal)

/-- The event name each subclass passes to DAPEvent.__init__. -/
def DAPEventMsg.event : DAPEventMsg → String
  | .DAPInitializedEvent => "initialized"
  | .DAPStoppedEvent .. => "stopped"
  | .DAPContinueEvent .. => "continued"
  | .DAPExitedEvent .. => "exited"
  | .DAPTerminatedEvent .. => "terminated"
  | .DAPThreadEvent .. => "thread"
  | .DAPOutputEvent .. => "output"
  | .DAPBreakpointEvent .. => "breakpoint"
  | .DAPModuleEvent .. => "module"
  | .DAPLoadedSourceEvent .. => "loadedSource"
  | .DAPProcessEvent .. => "process"
  | .DAPCapabilitiesEvent .. => "capabilities"

/-- DAPStoppedEvent.serialize_event_context body (protocol.py:268-283). -/
def DAPStoppedEvent.bodyMap (reason : String) (description : Option String)
    (thread_id : Option Int) (preserve_focus_hint : Option Bool) (text : Option String)
    (all_threads_stopped : Option Bool) : JObj :=
  let body := dictSet [] "reason" (.str reason)
  let body := dictSetOpt body "description" PyVal.str description
  let body := dictSetOpt body "threadId" PyVal.int thread_id
  let body := dictSetOpt body "preserveFocusHint" PyVal.bool preserve_focus_hint
  let body := dictSetOpt body "text" PyVal.str text
  dictSetOpt body "allThreadsStopped" PyVal.bool all_threads_stopped

/-- DAPContinueEvent.serialize_event_context body (protocol.py:293-300). -/
def DAPContinueEvent.bodyMap (thread_id : Int) (all_threads_continue : Option Bool) : JObj :=
  dictSetOpt (dictSet [] "threadId" (.int thread_id))
    "allThreadsContinued" PyVal.bool all_threads_continue

/-- DAPTerminatedEvent.serialize_event_context body in the restart-set case
(protocol.py:322-327). -/
def DAPTerminatedEvent.bodyMap (restart : PyVal) : JObj :=
  dictSet [] "restart" restart

/-- DAPOutputEvent.serialize_event_context body (protocol.py:357-379), in
source order: optional category first, then output, then the optionals. -/
def DAPOutputEvent.bodyMap (output : String) (category : Option String)
    (variables_reference : Option Int) (source : Option PyVal) (line : Option Int)
    (column : Option Int) (data : Option PyVal) : JObj :=
  let body := dictSetOpt [] "category" PyVal.str category
  let body := dictSet body "output" (.str output)
  let body := dictSetOpt body "variablesReference" PyVal.int variables_reference
  let body := dictSetOpt body "source" id source
  let body := dictSetOpt body "line" PyVal.int line
  let body := dictSetOpt body "column" PyVal.int column
  dictSetOpt body "data" id data

/-- DAPProcessEvent.serialize_event_context body (protocol.py:436-449). -/
def DAPProcessEvent.bodyMap (name : String) (process_id : Option Int)
    (is_local : Option Bool) (start_method : Option String) : JObj :=
  let body := dictSet [] "name" (.str name)
  let body := dictSetOpt body "systemProcessId" PyVal.int process_id
  let body := dictSetOpt body "isLocalProcess" PyVal.bool is_local
  dictSetOpt body "startMethod" PyVal.str start_method

/-- serialize_event_context of each event subclass. -/
def DAPEventMsg.serialize_event_context : DAPEventMsg → JObj → JObj
  | .DAPInitializedEvent, message => message
  | .DAPStoppedEvent r d tid pfh tx ats, message =>
    dictSet message "body" (.dict (DAPStoppedEvent.bodyMap r d tid pfh tx ats))
  | .DAPContinueEvent tid atc, message =>
    dictSet message "body" (.dict (DAPContinueEvent.bodyMap tid atc))
  | .DAPExitedEvent ec, message =>
    dictSet message "body" (.dict (dictSet [] "exitCode" (.int ec)))
  | .DAPTerminatedEvent none, message => message
  | .DAPTerminatedEvent (some r), message =>
    dictSet message "body" (.dict (DAPTerminatedEvent.bodyMap r))
  | .DAPThreadEvent r tid, message =>
    dictSet message "body"
      (.dict (dictSet (dictSet [] "reason" (.str r)) "threadId" (.int tid)))
  | .DAPOutputEvent o cat vr src line col data, message =>
    dictSet message "body" (.dict (DAPOutputEvent.bodyMap o cat vr src line col data))
  | .DAPBreakpointEvent r bp, message =>
    dictSet message "body"
      (.dict (dictSet (dictSet [] "reason" (.str r)) "breakpoint" bp))
  | .DAPModuleEvent r m, message =>
    dictSet message "body"
      (.dict (dictSet (dictSet [] "reason" (.str r)) "module" m))
  | .DAPLoadedSourceEvent r s, message =>
    dictSet message "body"
      (.dict (dictSet (dictSet [] "reason" (.str r)) "source" s))
  | .DAPProcessEvent n pid loc sm, message =>
    dictSet message "body" (.dict (DAPProcessEvent.bodyMap n pid loc sm))
  | .DAPCapabilitiesEvent caps, message =>
    dictSet message "body" (.dict (dictSet [] "capabilities" caps))

/-- DAPEvent.serialize_context (protocol.py:205-207). -/
def DAPEventMsg.serialize_context (e : DAPEventMsg) (message : JObj) : JObj :=
  e.serialize_event_context (dictSet message "event" (.str e.event))

/-- DAPMessage.serialize for an event; DAPEvent.get_type returns "event"
(protocol.py:212-213). -/
def DAPEventMsg.serialize (e : DAPEventMsg) (seq : PyVal) : JObj :=
  e.serialize_context (dictSet (dictSet [] "seq" seq) "type" (.str "event"))

/-- The response classes of protocol.py with the fields their __init__
stores. The first constructor is the base DAPResponse itself (constructible
and serializable on its own); each subclass fixes the command string and
success flag its __init__ passes to DAPResponse.__init__. -/
inductive DAPResponseMsg where
  | DAPResponse (rqs : Int) (command : String) (success : Bool) (message : Option String)
  | DAPErrorResponse (rqs : Int) (command : String) (message : String)
      (detailed_message : Option PyVal)
  | DAPRunInTerminalResponse (rqs : Int) (process_id : Option Int)
      (shell_process_id : Option Int)
  | DAPSetBreakpointsResponse (rqs : Int) (breakpoints : PyVal)
  | DAPSetFunctionBreakpointsResponse (rqs : Int) (breakpoints : PyVal)
  | DAPContinueResponse (rqs : Int) (all_threads_continue : Option Bool)
  | DAPInitializeResponse (rqs : Int) (capabilities : PyVal)
  | DAPStackTraceResponse (rqs : Int) (stack_frames : List PyVal)
  | DAPScopesResponse (rqs : Int) (scopes : PyVal)
  | DAPVariablesResponse (rqs : Int) (variables_val : PyVal)
  | DAPSetVariableResponse (rqs : Int) (value : String) (type : Option String)
      (variables_reference : Option Int) (named_variables : Option Int)
      (indexed_variables : Option Int)
  | DAPSourceResponse (rqs : Int) (source : PyVal) (mime_type : Option String)
  | DAPThreadsResponse (rqs : Int) (threads : PyVal)
  | DAPEvaluateResponse (rqs : Int) (result : PyVal) (type : Option String)
      (presentation_hint : Option PyVal) (variables_reference : Option Int)
      (named_variables : Option Int) (indexed_variables : Option Int)

/-- The request_seq each instance stores. -/
def DAPResponseMsg.rqs : DAPResponseMsg → Int
  | .DAPResponse r .. => r
  | .DAPErrorResponse r .. => r
  | .DAPRunInTerminalResponse r .. => r
  | .DAPSetBreakpointsResponse r .. => r
  | .DAPSetFunctionBreakpointsResponse r .. => r
  | .DAPContinueResponse r .. => r
  | .DAPInitializeResponse r .. => r
  | .DAPStackTraceResponse r .. => r
  | .DAPScopesResponse r .. => r
  | .DAPVariablesResponse r .. => r
  | .DAPSetVariableResponse r .. => r
  | .DAPSourceResponse r .. => r
  | .DAPThreadsResponse r .. => r
  | .DAPEvaluateResponse r .. => r

/-- The command string each instance stores (subclasses fix it). -/
def DAPResponseMsg.command : DAPResponseMsg → String
  | .DAPResponse _ c .. => c
  | .DAPErrorResponse _ c .. => c
  | .DAPRunInTerminalResponse .. => "runInTerminal"
  | .DAPSetBreakpointsResponse .. => "setBreakpoints"
  | .DAPSetFunctionBreakpointsResponse .. => "setFunctionBreakpoints"
  | .DAPContinueResponse .. => "continue"
  | .DAPInitializeResponse .. => "initialize"
  | .DAPStackTraceResponse .. => "stackTrace"
  | .DAPScopesResponse .. => "scopes"
  | .DAPVariablesResponse .. => "variables"
  | .DAPSetVariableResponse .. => "setVariable"
  | .DAPSourceResponse .. => "source"
  | .DAPThreadsResponse .. => "threads"
  | .DAPEvaluateResponse .. => "evaluate"

/-- The success flag each instance stores: subclasses default it to True,
DAPErrorResponse passes False. -/
def DAPResponseMsg.success : DAPResponseMsg → Bool
  | .DAPResponse _ _ s _ => s
  | .DAPErrorResponse .. => false
  | _ => true

/-- The message attribute each instance stores: only the constructible base
takes an optional message; DAPErrorResponse always stores its (defaulted
to the empty string) message argument. -/
def DAPResponseMsg.message : DAPResponseMsg → Option String
  | .DAPResponse _ _ _ m => m
  | .DAPErrorResponse _ _ m _ => some m
  | _ => none

/-- DAPRunInTerminalResponse.serialize_response_context body
(protocol.py:476-484). -/
def DAPRunInTerminalResponse.bodyMap (process_id : Option Int)
    (shell_process_id : Option Int) : JObj :=
  dictSetOpt (dictSetOpt [] "processId" PyVal.int process_id)
    "shellProcessId" PyVal.int shell_process_id

/-- DAPSetVariableResponse.serialize_response_context body
(protocol.py:589-601). -/
def DAPSetVariableResponse.bodyMap (value : String) (type : Option String)
    (variables_reference : Option Int) (named_variables : Option Int)
    (indexed_variables : Option Int) : JObj :=
  let body := dictSet [] "value" (.str value)
  let body := dictSetOpt body "type" PyVal.str type
  let body := dictSetOpt body "variablesReference" PyVal.int variables_reference
  let body := dictSetOpt body "namedVariables" PyVal.int named_variables
  dictSetOpt body "indexedVariables" PyVal.int indexed_variables

/-- serialize_response_context of each response class. All of them are total
constructions of the body map except DAPEvaluateResponse, whose first body
statement `body["value"] = self.value` (protocol.py:645) reads an attribute
its __init__ (protocol.py:632-639) never assigned — __init__ stores the
result in `self.result` — so that lookup raises AttributeError before any
key beyond the empty body is emitted. -/
def DAPResponseMsg.serialize_response_context : DAPResponseMsg → JObj → Except PyErr JObj
  | .DAPResponse .., message => .ok message
  | .DAPErrorResponse _ _ _ dm, message =>
    .ok (dictSet message "body" (.dict (dictSetOpt [] "error" id dm)))
  | .DAPRunInTerminalResponse _ pid spid, message =>
    .ok (dictSet message "body" (.dict (DAPRunInTerminalResponse.bodyMap pid spid)))
  | .DAPSetBreakpointsResponse _ bps, message =>
    .ok (dictSet message "body" (.dict (dictSet [] "breakpoints" bps)))
  | .DAPSetFunctionBreakpointsResponse _ bps, message =>
    .ok (dictSet message "body" (.dict (dictSet [] "breakpoints" bps)))
  | .DAPContinueResponse _ atc, message =>
    .ok (dictSet message "body"
      (.dict (dictSetOpt [] "allThreadsContinued" PyVal.bool atc)))
  | .DAPInitializeResponse _ caps, message =>
    .ok (dictSet message "body" caps)
  | .DAPStackTraceResponse _ frames, message =>
    .ok (dictSet message "body"
      (.dict (dictSet (dictSet [] "stackFrames" (.list frames))
        "totalFrames" (.int frames.length))))
  | .DAPScopesResponse _ scopes, message =>
    .ok (dictSet message "body" (.dict (dictSet [] "scopes" scopes)))
  | .DAPVariablesResponse _ vars, message =>
    .ok (dictSet message "body" (.dict (dictSet [] "variables" vars)))
  | .DAPSetVariableResponse _ v ty vr nv iv, message =>
    .ok (dictSet message "body" (.dict (DAPSetVariableResponse.bodyMap v ty vr nv iv)))
  | .DAPSourceResponse _ src mime, message =>
    .ok (dictSet message "body"
      (.dict (dictSetOpt (dictSet [] "source" src) "mimeType" PyVal.str mime)))
  | .DAPThreadsResponse _ ths, message =>
    .ok (dictSet message "body" (.dict (dictSet [] "threads" ths)))
  | .DAPEvaluateResponse .., _ => .error .attributeError

/-- DAPResponse.serialize_context (protocol.py:223-229): request_seq,
command, success — and then, when the message attribute is set, the
assignment `message["success"] = self.message` on line 228 overwrites the
success key with the message string instead of adding a `message` key. -/
def DAPResponseMsg.serialize_context (r : DAPResponseMsg) (message : JObj) :
    Except PyErr JObj :=
  let m := dictSet message "request_seq" (.int r.rqs)
  let m := dictSet m "command" (.str r.command)
  let m := dictSet m "success" (.bool r.success)
  let m := match r.message with
    | none => m
    | some s => dictSet m "success" (.str s)
  r.serialize_response_context m

/-- DAPMessage.serialize for a response; DAPResponse.get_type returns
"response" (protocol.py:234-235). -/
def DAPResponseMsg.serialize (r : DAPResponseMsg) (seq : PyVal) : Except PyErr JObj :=
  r.serialize_context (dictSet (dictSet [] "seq" seq) "type" (.str "response"))

/-! ## Claim C2: the message field collides with the success key -/

/-- Claim C2 evaluated at the failing input (code bug). Serializing a
response whose optional message is set emits request_seq and command, but
the success key holds the message string "oops" instead of the boolean, and
no separate `message` key exists in the output at all — the claim (and the
spec's stated contract, which flags this very line as a defect) requires a
dedicated `message` key alongside an untouched `success`. -/
theorem dapResponse_message_overwrites_success :
    DAPResponseMsg.serialize_context (.DAPResponse 7 "next" true (some "oops")) [] =
      .ok [("request_seq", .int 7), ("command", .str "next"), ("success", .str "oops")] ∧
    dictGet [("request_seq", PyVal.int 7), ("command", PyVal.str "next"),
      ("success", PyVal.str "oops")] "message" = none ∧
    dictGet [("request_seq", PyVal.int 7), ("command", PyVal.str "next"),
      ("success", PyVal.str "oops")] "success" = some (.str "oops") := by
  exact ⟨rfl, rfl, rfl⟩

/-! ## Claim C4: serialization of a valid DAPEvaluateResponse raises -/

/-- Claim C4 evaluated at the failing input (code bug). A validly
constructed DAPEvaluateResponse — required result set, every optional left
unset — does not serialize to a wire map: serialize raises AttributeError,
because serialize_response_context reads `self.value` while __init__ stored
the result under `self.result`. -/
theorem dapEvaluateResponse_serialize_raises :
    DAPResponseMsg.serialize
        (.DAPEvaluateResponse 1 (.str "42") none none none none none) (.int 9) =
      .error .attributeError := rfl

/-! ## Claim C5: the type discriminator -/

/-- Claim C5 evaluated at the failing input (code bug). Every serialized map
does contain `seq` and `type`, and responses and events carry the claimed
discriminators "response" and "event"; but a request's `type` value is the
literal string "type" — DAPRequest.get_type returns "type", not "request". -/
theorem serialize_type_discriminator_values :
    dictGet (DAPRequestObj.serialize ⟨.str "next", [], none⟩ (.int 1)) "seq" =
      some (.int 1) ∧
    dictGet (DAPRequestObj.serialize ⟨.str "next", [], none⟩ (.int 1)) "type" =
      some (.str "type") ∧
    PyVal.str "type" ≠ PyVal.str "request" ∧
    DAPResponseMsg.serialize (.DAPResponse 1 "next" true none) (.int 2) =
      .ok [("seq", .int 2), ("type", .str "response"), ("request_seq", .int 1),
           ("command", .str "next"), ("success", .bool true)] ∧
    dictGet (DAPEventMsg.serialize .DAPInitializedEvent (.int 3)) "type" =
      some (.str "event") ∧
    dictGet (DAPEventMsg.serialize .DAPInitializedEvent (.int 3)) "seq" =
      some (.int 3) := by
  refine ⟨rfl, rfl, ?_, rfl, rfl, rfl⟩
  intro h
  simp at h

/-! ## Claim C6: presence elision, no explicit nulls -/

/-- An optional payload that, when set, is not Python's None. -/
def optNoNull : Option PyVal → Bool
  | none => true
  | some v => !v.isNull

/-- A string value is never None. -/
@[simp] theorem PyVal.isNull_str (s : String) : (PyVal.str s).isNull = false := rfl

/-- An int value is never None. -/
@[simp] theorem PyVal.isNull_int (n : Int) : (PyVal.int n).isNull = false := rfl

/-- A bool value is never None. -/
@[simp] theorem PyVal.isNull_bool (b : Bool) : (PyVal.bool b).isNull = false := rfl

/-- A list value is never None. -/
@[simp] theorem PyVal.isNull_list (xs : List PyVal) : (PyVal.list xs).isNull = false := rfl

/-- A dict value is never None. -/
@[simp] theorem PyVal.isNull_dict (xs : List (String × PyVal)) :
    (PyVal.dict xs).isNull = false := rfl

/-- Claim C6, one conjunct per Response/Event variant of protocol.py. For
each variant: a key belonging to an unset optional field is absent from the
serialized body, and the body holds no null value (given, for verbatim
payload fields, that the session supplied a non-None payload — nested
contents are passed through opaquely and are the session's responsibility,
per the spec). The Terminated event with restart unset leaves the message
map untouched, so its serialized map has no `body` key at all.
DAPEvaluateResponse, whose serialization raises before emitting a body, has
nothing to state here. -/
theorem serialize_presence_elision :
    (∀ msg : JObj, DAPEventMsg.DAPInitializedEvent.serialize_event_context msg = msg) ∧
    (∀ (r : String) (d : Option String) (tid : Option Int) (pfh : Option Bool)
        (tx : Option String) (ats : Option Bool),
      (d = none → dictGet (DAPStoppedEvent.bodyMap r d tid pfh tx ats) "description" = none) ∧
      (tid = none → dictGet (DAPStoppedEvent.bodyMap r d tid pfh tx ats) "threadId" = none) ∧
      (pfh = none →
        dictGet (DAPStoppedEvent.bodyMap r d tid pfh tx ats) "preserveFocusHint" = none) ∧
      (tx = none → dictGet (DAPStoppedEvent.bodyMap r d tid pfh tx ats) "text" = none) ∧
      (ats = none →
        dictGet (DAPStoppedEvent.bodyMap r d tid pfh tx ats) "allThreadsStopped" = none) ∧
      noNullValues (DAPStoppedEvent.bodyMap r d tid pfh tx ats) = true) ∧
    (∀ (tid : Int) (atc : Option Bool),
      (atc = none → dictGet (DAPContinueEvent.bodyMap tid atc) "allThreadsContinued" = none) ∧
      noNullValues (DAPContinueEvent.bodyMap tid atc) = true) ∧
    (∀ ec : Int, noNullValues (dictSet [] "exitCode" (.int ec)) = true) ∧
    ((∀ msg : JObj, (DAPEventMsg.DAPTerminatedEvent none).serialize_event_context msg = msg) ∧
      (∀ seqv : PyVal,
        dictGet (DAPEventMsg.serialize (.DAPTerminatedEvent none) seqv) "body" = none) ∧
      (∀ rv : PyVal, rv.isNull = false →
        noNullValues (DAPTerminatedEvent.bodyMap rv) = true)) ∧
    (∀ (r : String) (tid : Int),
      noNullValues (dictSet (dictSet [] "reason" (.str r)) "threadId" (.int tid)) = true) ∧
    (∀ (o : String) (cat : Option String) (vr : Option Int) (src : Option PyVal)
        (line : Option Int) (col : Option Int) (data : Option PyVal),
      (cat = none → dictGet (DAPOutputEvent.bodyMap o cat vr src line col data) "category" = none) ∧
      (vr = none →
        dictGet (DAPOutputEvent.bodyMap o cat vr src line col data) "variablesReference" = none) ∧
      (src = none → dictGet (DAPOutputEvent.bodyMap o cat vr src line col data) "source" = none) ∧
      (line = none → dictGet (DAPOutputEvent.bodyMap o cat vr src line col data) "line" = none) ∧
      (col = none → dictGet (DAPOutputEvent.bodyMap o cat vr src line col data) "column" = none) ∧
      (data = none → dictGet (DAPOutputEvent.bodyMap o cat vr src line col data) "data" = none) ∧
      (optNoNull src = true → optNoNull data = true →
        noNullValues (DAPOutputEvent.bodyMap o cat vr src line col data) = true)) ∧
    (∀ (r : String) (bp : PyVal), bp.isNull = false →
      noNullValues (dictSet (dictSet [] "reason" (.str r)) "breakpoint" bp) = true) ∧
    (∀ (r : String) (m : PyVal), m.isNull = false →
      noNullValues (dictSet (dictSet [] "reason" (.str r)) "module" m) = true) ∧
    (∀ (r : String) (s : PyVal), s.isNull = false →
      noNullValues (dictSet (dictSet [] "reason" (.str r)) "source" s) = true) ∧
    (∀ (n : String) (pid : Option Int) (loc : Option Bool) (sm : Option String),
      (pid = none → dictGet (DAPProcessEvent.bodyMap n pid loc sm) "systemProcessId" = none) ∧
      (loc = none → dictGet (DAPProcessEvent.bodyMap n pid loc sm) "isLocalProcess" = none) ∧
      (sm = none → dictGet (DAPProcessEvent.bodyMap n pid loc sm) "startMethod" = none) ∧
      noNullValues (DAPProcessEvent.bodyMap n pid loc sm) = true) ∧
    (∀ caps : PyVal, caps.isNull = false →
      noNullValues (dictSet [] "capabilities" caps) = true) ∧
    (∀ (rqs : Int) (c : String) (s : Bool) (msgO : Option String) (m : JObj),
      (DAPResponseMsg.DAPResponse rqs c s msgO).serialize_response_context m = .ok m) ∧
    (∀ dm : Option PyVal,
      (dm = none → dictGet (dictSetOpt [] "error" id dm) "error" = none) ∧
      (optNoNull dm = true → noNullValues (dictSetOpt [] "error" id dm) = true)) ∧
    (∀ (pid : Option Int) (spid : Option Int),
      (pid = none → dictGet (DAPRunInTerminalResponse.bodyMap pid spid) "processId" = none) ∧
      (spid = none →
        dictGet (DAPRunInTerminalResponse.bodyMap pid spid) "shellProcessId" = none) ∧
      noNullValues (DAPRunInTerminalResponse.bodyMap pid spid) = true) ∧
    (∀ bps : PyVal, bps.isNull = false →
      noNullValues (dictSet [] "breakpoints" bps) = true) ∧
    (∀ atc : Option Bool,
      (atc = none →
        dictGet (dictSetOpt [] "allThreadsContinued" PyVal.bool atc) "allThreadsContinued" = none) ∧
      noNullValues (dictSetOpt [] "allThreadsContinued" PyVal.bool atc) = true) ∧
    (∀ (rqs : Int) (caps : PyVal) (m : JObj),
      (DAPResponseMsg.DAPInitializeResponse rqs caps).serialize_response_context m =
        .ok (dictSet m "body" caps)) ∧
    (∀ frames : List PyVal,
      noNullValues (dictSet (dictSet [] "stackFrames" (.list frames))
        "totalFrames" (.int frames.length)) = true) ∧
    (∀ sc : PyVal, sc.isNull = false → noNullValues (dictSet [] "scopes" sc) = true) ∧
    (∀ vs : PyVal, vs.isNull = false → noNullValues (dictSet [] "variables" vs) = true) ∧
    (∀ (v : String) (ty : Option String) (vr : Option Int) (nv : Option Int)
        (iv : Option Int),
      (ty = none → dictGet (DAPSetVariableResponse.bodyMap v ty vr nv iv) "type" = none) ∧
      (vr = none →
        dictGet (DAPSetVariableResponse.bodyMap v ty vr nv iv) "variablesReference" = none) ∧
      (nv = none →
        dictGet (DAPSetVariableResponse.bodyMap v ty vr nv iv) "namedVariables" = none) ∧
      (iv = none →
        dictGet (DAPSetVariableResponse.bodyMap v ty vr nv iv) "indexedVariables" = none) ∧
      noNullValues (DAPSetVariableResponse.bodyMap v ty vr nv iv) = true) ∧
    (∀ (src : PyVal) (mime : Option String),
      (mime = none →
        dictGet (dictSetOpt (dictSet [] "source" src) "mimeType" PyVal.str mime) "mimeType" = none) ∧
      (src.isNull = false →
        noNullValues (dictSetOpt (dictSet [] "source" src) "mimeType" PyVal.str mime) = true)) ∧
    (∀ ths : PyVal, ths.isNull = false → noNullValues (dictSet [] "threads" ths) = true) := by
  refine ⟨?_, ?_, ?_, ?_, ⟨?_, ?_, ?_⟩, ?_, ?_, ?_, ?_, ?_, ?_, ?_, ?_, ?_, ?_, ?_, ?_,
    ?_, ?_, ?_, ?_, ?_, ?_, ?_⟩
  · intro msg; rfl
  · intro r d tid pfh tx ats
    rcases d with _ | d <;> rcases tid with _ | tid <;> rcases pfh with _ | pfh <;>
      rcases tx with _ | tx <;> rcases ats with _ | ats <;>
      refine ⟨?_, ?_, ?_, ?_, ?_, ?_⟩ <;> intros <;>
      simp_all [DAPStoppedEvent.bodyMap, dictSetOpt, dictSet, dictGet, noNullValues,
        PyVal.isNull]
  · intro tid atc
    rcases atc with _ | atc <;> refine ⟨?_, ?_⟩ <;> intros <;>
      simp_all [DAPContinueEvent.bodyMap, dictSetOpt, dictSet, dictGet, noNullValues,
        PyVal.isNull]
  · intro ec; rfl
  · intro msg; rfl
  · intro seqv; rfl
  · intro rv h
    simp [DAPTerminatedEvent.bodyMap, dictSet, noNullValues, h]
  · intro r tid; rfl
  · intro o cat vr src line col data
    rcases cat with _ | cat <;> rcases vr with _ | vr <;> rcases src with _ | src <;>
      rcases line with _ | line <;> rcases col with _ | col <;> rcases data with _ | data <;>
      refine ⟨?_, ?_, ?_, ?_, ?_, ?_, ?_⟩ <;> intros <;>
      simp_all [DAPOutputEvent.bodyMap, dictSetOpt, dictSet, dictGet, noNullValues,
        optNoNull, PyVal.isNull]
  · intro r bp h; simp [dictSet, noNullValues, h]
  · intro r m h; simp [dictSet, noNullValues, h]
  · intro r s h; simp [dictSet, noNullValues, h]
  · intro n pid loc sm
    rcases pid with _ | pid <;> rcases loc with _ | loc <;> rcases sm with _ | sm <;>
      refine ⟨?_, ?_, ?_, ?_⟩ <;> intros <;>
      simp_all [DAPProcessEvent.bodyMap, dictSetOpt, dictSet, dictGet, noNullValues,
        PyVal.isNull]
  · intro caps h; simp [dictSet, noNullValues, h]
  · intro rqs c s msgO m; rfl
  · intro dm
    rcases dm with _ | dm <;> refine ⟨?_, ?_⟩ <;> intros <;>
      simp_all [dictSetOpt, dictSet, dictGet, noNullValues, optNoNull, PyVal.isNull]
  · intro pid spid
    rcases pid with _ | pid <;> rcases spid with _ | spid <;>
      refine ⟨?_, ?_, ?_⟩ <;> intros <;>
      simp_all [DAPRunInTerminalResponse.bodyMap, dictSetOpt, dictSet, dictGet,
        noNullValues, PyVal.isNull]
  · intro bps h; simp [dictSet, noNullValues, h]
  · intro atc
    rcases atc with _ | atc <;> refine ⟨?_, ?_⟩ <;> intros <;>
      simp_all [dictSetOpt, dictSet, dictGet, noNullValues, PyVal.isNull]
  · intro rqs caps m; rfl
  · intro frames; rfl
  · intro sc h; simp [dictSet, noNullValues, h]
  · intro vs h; simp [dictSet, noNullValues, h]
  · intro v ty vr nv iv
    rcases ty with _ | ty <;> rcases vr with _ | vr <;> rcases nv with _ | nv <;>
      rcases iv with _ | iv <;>
      refine ⟨?_, ?_, ?_, ?_, ?_⟩ <;> intros <;>
      simp_all [DAPSetVariableResponse.bodyMap, dictSetOpt, dictSet, dictGet,
        noNullValues, PyVal.isNull]
  · intro src mime
    rcases mime with _ | mime <;> refine ⟨?_, ?_⟩ <;> intros <;>
      simp_all [dictSetOpt, dictSet, dictGet, noNullValues, PyVal.isNull]
  · intro ths h; simp [dictSet, noNullValues, h]

/-- Witness for C6 at concrete instances: a stopped event with description
unset omits that key, a terminated event with restart unset has no body key
in its full serialized map, and a breakpoint event over a non-None payload
emits no null. -/
theorem serialize_presence_elision_witness :
    dictGet (DAPStoppedEvent.bodyMap "breakpoint" none (some 1) none none none)
      "description" = none ∧
    dictGet (DAPEventMsg.serialize (.DAPTerminatedEvent none) (.int 4)) "body" = none ∧
    noNullValues (dictSet (dictSet [] "reason" (.str "new")) "breakpoint" (.dict [])) =
      true := by
  obtain ⟨e1, e2, e3, e4, e5, e6, e7, e8, e9, e10, e11, e12,
    r1, r2, r3, r4, r5, r6, r7, r8, r9, r10, r11, r12⟩ := serialize_presence_elision
  exact ⟨(e2 "breakpoint" none (some 1) none none none).1 rfl,
    e5.2.1 (PyVal.int 4),
    e8 "new" (.dict []) rfl⟩
